import Mathlib

/-!
# Verification of the cart/checkout core of the cosmetics-backend shop app

Shallow embedding of `shop/models.py`, `shop/serializers.py` and the cart /
checkout view functions of `shop/views.py`.

Modelling conventions:
* Decimal values all come from 2-decimal-place fields (`DecimalField(...,
  decimal_places=2)`), so they are represented exactly as integer cents
  (`Cents := Int`); `Decimal.quantize(Decimal("0.01"))` is the identity on
  such values and is therefore invisible in the embedding.
* The persistence layer is modelled as an explicit relational state `St`:
  each Django model is a row structure, each table a list of rows kept in
  insertion order (Django's default pk ordering), and `Model.objects.create`
  appends a row.  Primary keys are drawn from a single allocator `St.nextId`;
  claims do not depend on the numbering scheme, only on freshness.
* `request.data.get(...)` fields are explicit parameters; the ambient
  authenticated customer (`get_customer_for_user`) is threaded in as an
  `Option Customer` parameter, as the spec itself prescribes for this core.
* Python truthiness matters in three places and is modelled explicitly:
  `if not product_id` / `if variant_id` treat the integer 0 like a missing
  id (`truthyId`), `Product.get_price` treats a 0.00 discount like an unset
  one, and an absent/empty shipping dict is a single `Option.none`.
* The source has wiring faults that raise at run time: `CartItem.cart`
  declares no `related_name`, so every `cart.items` access raises
  `AttributeError`; the effective serializers read missing attributes and
  fields; `checkout` passes `Order.objects.create` kwargs that models.py's
  `Order` does not declare; `Cart.total` uses an unimported `Decimal`.
  Definitions carrying a `Run` suffix model the operations as executed,
  these exceptions included (DRF turns an uncaught exception into a 500
  response; each ORM statement autocommits, so writes made before a later
  exception persist).  The un-suffixed cart-write definitions model the
  Python-side write logic of the views, which executes before any of those
  failures; state-level facts are settled against them, response-level and
  checkout facts against the `Run` layer.
-/

namespace Shop

/-- Two-decimal-place `Decimal` values, represented exactly as integer cents. -/
abbrev Cents := Int

/-- Model `Product` of `shop/models.py` (the fields the cart/checkout core reads). -/
structure Product where
  id : Nat
  name : String
  price : Cents
  discount_price : Option Cents
  image : String
  deriving Repr, DecidableEq

/-- Method `Product.get_price` (models.py):
`return self.discount_price if self.discount_price else self.price`.
Python truthiness: both an unset (`None`) and a 0.00 discount are falsy,
so a discount stored as 0.00 falls back to the base price. -/
def Product.get_price (p : Product) : Cents :=
  match p.discount_price with
  | some d => if d = 0 then p.price else d
  | none => p.price

/-- Model `ProductVariant` of `shop/models.py` (fields the core reads). -/
structure ProductVariant where
  id : Nat
  productId : Nat
  additional_price : Cents
  deriving Repr, DecidableEq

/-- Model `Customer` of `shop/models.py` (only its identity matters to the core). -/
structure Customer where
  id : Nat
  deriving Repr, DecidableEq

/-- Model `Cart` of `shop/models.py`: id and owning customer. -/
structure Cart where
  id : Nat
  customerId : Nat
  deriving Repr, DecidableEq

/-- Model `CartItem` of `shop/models.py`.  Its `quantity` is a `PositiveIntegerField`, but
the Python-side attribute is a plain `int` and the view code performs
unchecked arithmetic on it, so it is modelled as `Int`. -/
structure CartItem where
  id : Nat
  cartId : Nat
  productId : Nat
  variantId : Option Nat
  quantity : Int
  unit_price : Cents
  deriving Repr, DecidableEq

/-- The `Order` row as created by `checkout` (views.py lines 325-330):
customer, `total_amount`, `payment_status`, `order_status`.  (models.py's
`Order` class declares `status`/`complete`/`transaction_id` and none of
these three kwargs, so the create call as executed raises `TypeError` —
see `checkoutRun`.  The structure records the row shape the call names;
no such row ever comes to exist in the program.) -/
structure Order where
  id : Nat
  customerId : Nat
  total_amount : Cents
  payment_status : String
  order_status : String
  deriving Repr, DecidableEq

/-- Model `OrderItem` as created by `checkout` (no variant is
copied by the checkout loop). -/
structure OrderItem where
  id : Nat
  orderId : Nat
  productId : Nat
  quantity : Int
  price : Cents
  deriving Repr, DecidableEq

/-- Model `ShippingAddress` as created by `checkout`. -/
structure ShippingAddress where
  id : Nat
  customerId : Nat
  orderId : Nat
  address : String
  city : String
  zip_code : String
  country : String
  deriving Repr, DecidableEq

/-- The relational store: one list of rows per table, plus a pk allocator. -/
structure St where
  products : List Product
  variants : List ProductVariant
  carts : List Cart
  cartItems : List CartItem
  orders : List Order
  orderItems : List OrderItem
  shippingAddresses : List ShippingAddress
  nextId : Nat
  deriving Repr, DecidableEq

/-- Function `compute_unit_price(product, variant)` (views.py lines 60-65).
`base` is `product.get_price()` (the `getattr` probe always finds the
method); `add` is the variant surcharge when a variant is passed, where
`x or Decimal("0.00")` is the identity on cents; the final
`quantize(Decimal("0.01"))` is exact on cent values. -/
def compute_unit_price (product : Product) (variant : Option ProductVariant) : Cents :=
  let base := product.get_price
  let add : Cents :=
    match variant with
    | some v => v.additional_price
    | none => 0
  base + add

/-! ## Serializers (`shop/serializers.py`)

Python executes the module top to bottom, so the later definitions of
`CartSerializer` / `CartItemSerializer` / `ProductVariantSerializer`
(lines 72-98) shadow the earlier ones; the views import the later ones. -/

/-- A JSON value, for serializer output. -/
inductive J where
  | s (v : String)
  | n (v : Int)
  | o (fields : List (String × J))
  | a (elems : List J)
  | null

/-- Key lookup in a JSON object. -/
def J.lookup : J → String → Option J
  | J.o fields, k => List.lookup k fields
  | _, _ => none

/-- The field names of a JSON object. -/
def J.keys : J → List String
  | J.o fields => fields.map Prod.fst
  | _ => []

/-- Look a product up by id (`get_object_or_404(Product, id=...)` /
FK dereference). -/
def findProduct (st : St) (pid : Nat) : Option Product :=
  st.products.find? (fun p => p.id == pid)

/-- Serializer `ProductMiniSerializer`: `fields = ['id', 'name', 'price', 'image']`. -/
def serializeProductMini (p : Product) : J :=
  J.o [("id", J.n p.id), ("name", J.s p.name), ("price", J.n p.price),
       ("image", J.s p.image)]

/-- The later `ProductVariantSerializer` declares
`fields = ['id', 'name', 'price', 'stock']`, but `ProductVariant` defines
none of `name`/`price`/`stock`: as executed, DRF raises
`ImproperlyConfigured` when building these fields (see `serializeCartRun`);
this definition records the only declared field that exists. -/
def serializeVariant (v : ProductVariant) : J :=
  J.o [("id", J.n v.id)]

/-- The later `CartItemSerializer`:
`fields = ['id', 'product', 'variant', 'quantity']`, with nested
`ProductMiniSerializer` / `ProductVariantSerializer`.  Note: neither
`unit_price` nor any price-derived field is listed. -/
def serializeCartItem (st : St) (it : CartItem) : J :=
  J.o [("id", J.n it.id),
       ("product",
         match findProduct st it.productId with
         | some p => serializeProductMini p
         | none => J.null),
       ("variant",
         match it.variantId with
         | some vid =>
           match st.variants.find? (fun v => v.id == vid) with
           | some v => serializeVariant v
           | none => J.null
         | none => J.null),
       ("quantity", J.n it.quantity)]

/-- The items of a cart (`cart.items.all()`: the `CartItem` rows whose
`cart` FK points at this cart, in insertion order).  The FK declares no
`related_name`, so the `cart.items` attribute access itself raises
`AttributeError` at run time (see the `Run` definitions); this definition
is the row collection the FK defines (`cartitem_set`), used for
state-level reasoning. -/
def cartItemsOf (st : St) (cart : Cart) : List CartItem :=
  st.cartItems.filter (fun it => it.cartId == cart.id)

/-- The later `CartSerializer`: `fields = ['id', 'items']`.  No `total`
field is declared and none is stored on `Cart`.  This definition records
the declared shape; as executed the serializer raises on the missing
`items` attribute — see `serializeCartRun`. -/
def serializeCart (st : St) (cart : Cart) : J :=
  J.o [("id", J.n cart.id),
       ("items", J.a ((cartItemsOf st cart).map (serializeCartItem st)))]

/-! ## Cart endpoints (`shop/views.py` lines 208-304) -/

/-- An HTTP response, at the granularity the claims need. -/
inductive Resp where
  | ok (body : J)
  | created (body : J)
  | badRequest (msg : String)
  | notFound
  | serverError

/-- A request field carrying an integer: absent (so the view's
`request.data.get(_, default)` default applies), present and parseable by
`int(...)`, or present but unparseable (`ValueError`/`TypeError`). -/
inductive IntField where
  | absent
  | val (n : Int)
  | malformed
  deriving Repr, DecidableEq

/-- Resolve an `IntField` against the view's default: `some` the parsed
integer, `none` when `int(...)` raises. -/
def IntField.parse (default : Int) : IntField → Option Int
  | IntField.absent => some default
  | IntField.val n => some n
  | IntField.malformed => none

/-- Python truthiness of an optional integer id (`if not product_id` /
`if variant_id`): both a missing id and the integer 0 are falsy. -/
def truthyId : Option Nat → Option Nat
  | none => none
  | some 0 => none
  | some (n + 1) => some (n + 1)

/-- Variant resolution in `add_to_cart` (views.py lines 229-232):
no (truthy) `variant_id` means no variant; a truthy one must resolve via
`get_object_or_404(ProductVariant, id=variant_id, product=product)`, else
the request 404s (`none`). -/
def resolveVariant (st : St) (product : Product) (variant_id : Option Nat) :
    Option (Option ProductVariant) :=
  match truthyId variant_id with
  | none => some none
  | some vid =>
    match st.variants.find? (fun v => v.id == vid && v.productId == product.id) with
    | none => none
    | some v => some (some v)

/-- Lookup `Cart.objects.get_or_create(customer=customer)` (views.py line 234). -/
def getOrCreateCart (st : St) (c : Customer) : Cart × St :=
  match st.carts.find? (fun k => k.customerId == c.id) with
  | some k => (k, st)
  | none =>
    let k : Cart := ⟨st.nextId, c.id⟩
    (k, { st with carts := st.carts ++ [k], nextId := st.nextId + 1 })

/-- The (cart, product, variant) lookup key of
`CartItem.objects.get_or_create` (views.py lines 237-242); `variant=None`
filters on SQL NULL, so `Option Nat` equality is the right key equality. -/
def cartKeyMatch (cart : Cart) (product : Product) (variant : Option ProductVariant)
    (it : CartItem) : Bool :=
  it.cartId == cart.id && it.productId == product.id &&
    it.variantId == variant.map (fun v => v.id)

/-- The in-place CartItem update performed by the merge branch of
`add_to_cart` (`cart_item.save()` writes back by pk). -/
def mergeSave (item : CartItem) (q : Int) (price : Cents) (x : CartItem) : CartItem :=
  if x.id == item.id then
    { x with quantity := x.quantity + q, unit_price := price }
  else x

/-- The body of `add_to_cart` after resolution (views.py lines 234-250):
get-or-create the cart, compute the unit price, get-or-create the
`CartItem` by (cart, product, variant) — creating it with the given
quantity and unit price, or else merging quantity and overwriting the
stored unit price — and return the serialized cart.  The `Resp.ok`
response is the 200 the code aims for; as executed the serialization
raises and the response is a 500 (`addItemToCartRun`) — only state-level
facts are proved about this definition. -/
def addItemToCart (st : St) (c : Customer) (product : Product)
    (variant : Option ProductVariant) (quantity : Int) : Resp × St :=
  let (cart, st1) := getOrCreateCart st c
  let unit_price := compute_unit_price product variant
  let st2 :=
    match st1.cartItems.find? (cartKeyMatch cart product variant) with
    | none =>
      let item : CartItem :=
        ⟨st1.nextId, cart.id, product.id, variant.map (fun v => v.id), quantity, unit_price⟩
      { st1 with cartItems := st1.cartItems ++ [item], nextId := st1.nextId + 1 }
    | some item =>
      { st1 with cartItems := st1.cartItems.map (mergeSave item quantity unit_price) }
  (Resp.ok (serializeCart st2 cart), st2)

/-- View `add_to_cart` (views.py lines 208-250).  Validation order as in the
source: customer, `product_id` presence (Python-truthy), `quantity` parse
(default 1), product 404, variant 404; then the get-or-create/merge body.
Response-level behaviour as executed is `add_to_cartRun`. -/
def add_to_cart (st : St) (customer : Option Customer) (product_id : Option Nat)
    (variant_id : Option Nat) (quantity : IntField) : Resp × St :=
  match customer with
  | none => (Resp.badRequest "Customer not found", st)
  | some c =>
    match truthyId product_id with
    | none => (Resp.badRequest "product_id is required", st)
    | some pid =>
      match quantity.parse 1 with
      | none => (Resp.badRequest "quantity must be an integer", st)
      | some q =>
        match findProduct st pid with
        | none => (Resp.notFound, st)
        | some product =>
          match resolveVariant st product variant_id with
          | none => (Resp.notFound, st)
          | some variant => addItemToCart st c product variant q

/-- The body of `view_cart`'s empty answer (views.py lines 258, 261). -/
def emptyCartResponse : J :=
  J.o [("items", J.a []), ("total", J.s "0.00")]

/-- Lookup `get_object_or_404(CartItem, id=item_id, cart__customer=customer)`
(views.py lines 270, 290): the item must exist and its cart's owner must be
the requesting customer; an unresolved customer matches nothing. -/
def findOwnedCartItem (st : St) (customer : Option Customer) (item_id : Nat) :
    Option CartItem :=
  match customer with
  | none => none
  | some c =>
    st.cartItems.find? (fun it =>
      it.id == item_id &&
        match st.carts.find? (fun k => k.id == it.cartId) with
        | some k => k.customerId == c.id
        | none => false)

/-- View `update_cart_item` (views.py lines 266-283): ownership-checked lookup
(404 on failure), quantity parse (defaulting to the current quantity),
delete when the new quantity is ≤ 0, otherwise set it and return the
serialized cart. -/
def update_cart_item (st : St) (customer : Option Customer) (item_id : Nat)
    (quantity : IntField) : Resp × St :=
  match findOwnedCartItem st customer item_id with
  | none => (Resp.notFound, st)
  | some item =>
    match quantity.parse item.quantity with
    | none => (Resp.badRequest "quantity must be an integer", st)
    | some q =>
      if q ≤ 0 then
        (Resp.ok (J.o [("message", J.s "Item removed")]),
         { st with cartItems := st.cartItems.filter (fun x => x.id != item.id) })
      else
        let st2 : St :=
          { st with cartItems := st.cartItems.map (fun x =>
              if x.id == item.id then { x with quantity := q } else x) }
        match st2.carts.find? (fun k => k.id == item.cartId) with
        | some cart => (Resp.ok (serializeCart st2 cart), st2)
        | none => (Resp.ok J.null, st2)

/-- View `remove_from_cart` (views.py lines 286-294): ownership-checked lookup
(404 on failure), delete the item, return the serialized cart. -/
def remove_from_cart (st : St) (customer : Option Customer) (item_id : Nat) :
    Resp × St :=
  match findOwnedCartItem st customer item_id with
  | none => (Resp.notFound, st)
  | some item =>
    let st2 : St :=
      { st with cartItems := st.cartItems.filter (fun x => x.id != item.id) }
    match st2.carts.find? (fun k => k.id == item.cartId) with
    | some cart => (Resp.ok (serializeCart st2 cart), st2)
    | none => (Resp.ok J.null, st2)

/-- View `clear_cart` (views.py lines 297-304): delete all items of the
customer's cart when one exists; a no-op otherwise; always 200. -/
def clear_cart (st : St) (customer : Option Customer) : Resp × St :=
  let st2 :=
    match customer with
    | none => st
    | some c =>
      match st.carts.find? (fun k => k.customerId == c.id) with
      | none => st
      | some cart =>
        { st with cartItems := st.cartItems.filter (fun x => x.cartId != cart.id) }
  (Resp.ok (J.o [("message", J.s "Cart cleared")]), st2)

/-! ## Checkout request payload (`shop/views.py` lines 311-353)

The checkout view itself is modelled in the as-executed section below:
its `transaction.atomic` body is unreachable in the program (see
`checkoutRun`), so only the request payload is defined here. -/

/-- The optional `shipping` dict of the checkout request: each field read
with `shipping.get(_, "")`.  `if shipping:` makes an absent and an empty
dict equivalent, so both are `Option.none` at this level. -/
structure ShippingPayload where
  address : Option String
  city : Option String
  zip_code : Option String
  country : Option String
  deriving Repr, DecidableEq

/-! ## Derived predicates -/

/-- Two cart items share the same (cart, product, variant) key; a NULL
variant only matches a NULL variant. -/
def sameKey (a b : CartItem) : Prop :=
  a.cartId = b.cartId ∧ a.productId = b.productId ∧ a.variantId = b.variantId

/-- The key-uniqueness invariant of the cart table: at most one `CartItem`
row per (cart, product, variant), a NULL variant being its own key. -/
def uniqueCartKeys (st : St) : Prop :=
  st.cartItems.Pairwise (fun a b => ¬ sameKey a b)

/-- The base price exactly as claim C7 words it: the discount price
whenever one is set (even a 0.00 one), the base price otherwise.  Stated
from the spec's words, to be compared against `compute_unit_price`. -/
def claimedBaseC7 (p : Product) : Cents :=
  match p.discount_price with
  | some d => d
  | none => p.price

/-- The variant surcharge of the pricing contract: the variant's
`additional_price` when a variant is given, exactly 0 otherwise. -/
def variantSurcharge : Option ProductVariant → Cents
  | some v => v.additional_price
  | none => 0

/-! ## Concrete fixtures (used by witnesses and counterexamples) -/

/-- A product at 10.00, no discount. -/
def prodA : Product := ⟨1, "Lipstick", 1000, none, "img"⟩

/-- A variant of `prodA` with a 1.50 surcharge. -/
def varA : ProductVariant := ⟨2, 1, 150⟩

def custA : Customer := ⟨1⟩

def custB : Customer := ⟨2⟩

/-- Catalog only: no carts yet. -/
def st0 : St := ⟨[prodA], [varA], [], [], [], [], [], 10⟩

def cartA : Cart := ⟨10, 1⟩

/-- Two units of (`prodA`, `varA`) at the frozen unit price 11.50. -/
def itemA : CartItem := ⟨11, 10, 1, some 2, 2, 1150⟩

/-- Customer A with a one-line cart. -/
def stC : St := ⟨[prodA], [varA], [cartA], [itemA], [], [], [], 12⟩

def cartB : Cart := ⟨20, 2⟩

def itemB : CartItem := ⟨21, 20, 1, none, 1, 1000⟩

/-- Customer B's cart and item, for the ownership-isolation witness. -/
def stB : St := ⟨[prodA], [varA], [cartB], [itemB], [], [], [], 30⟩

/-- A product whose discount is set to exactly 0.00. -/
def prodZero : Product := ⟨3, "Serum", 1000, some 0, "img"⟩

/-- A product with a genuine 5.00 discount off a 10.00 price. -/
def prodDisc : Product := ⟨4, "Toner", 1000, some 500, "img"⟩

/-- Product `prodA` after its price was raised to 20.00 (for the re-add witness). -/
def prodP3 : Product := ⟨1, "Lipstick", 2000, none, "img"⟩

/-- Store `stC` with the product price raised after `itemA` froze 11.50. -/
def stP3 : St := ⟨[prodP3], [varA], [cartA], [itemA], [], [], [], 12⟩


/-! ## The program as executed

The wiring faults above raise at run time; the definitions of this
section model the operations as the source actually executes them,
exceptions included.  An uncaught exception becomes a 500 server-error
response; each ORM statement autocommits, so writes made before a later
exception persist. -/

/-- Exceptions raised by the source's wiring. -/
inductive PyError where
  | attributeError
  | typeError
  | nameError
  | improperlyConfigured
  | integrityError
  deriving Repr, DecidableEq

/-- The effective `CartSerializer` as executed: its declared `items`
field reads the `items` attribute of `Cart`, which does not exist
(`CartItem.cart` has no `related_name`, models.py line 126), so
serializing any cart raises `AttributeError`; an item with a variant
would moreover raise `ImproperlyConfigured` from the nested variant
serializer's invalid field list.  No cart snapshot is ever produced. -/
def serializeCartRun (_ : St) (_ : Cart) : Except PyError J :=
  Except.error PyError.attributeError

/-- Method `Cart.total` as executed (models.py lines 112-117): its first
line reads `self.items` and raises `AttributeError`; even past that,
`Decimal` is never imported in models.py, so `Decimal('0.00')` would
raise `NameError`.  The derived total is never computed. -/
def Cart.totalRun (_ : St) (_ : Cart) : Except PyError Cents :=
  Except.error PyError.attributeError

/-- View `view_cart` as executed (views.py lines 253-263): the
missing-customer and missing-cart branches answer the hardcoded empty
body and are faithful; with an existing cart, `CartSerializer(cart).data`
raises (see `serializeCartRun`) and the request 500s. -/
def view_cartRun (st : St) (customer : Option Customer) : Resp :=
  match customer with
  | none => Resp.ok emptyCartResponse
  | some c =>
    match st.carts.find? (fun k => k.customerId == c.id) with
    | none => Resp.ok emptyCartResponse
    | some cart =>
      match serializeCartRun st cart with
      | Except.ok body => Resp.ok body
      | Except.error _ => Resp.serverError

/-- View `checkout` as executed (views.py lines 311-353).  `not cart`
short-circuits, so a missing cart row answers the 400 "Cart is empty";
but with any existing cart row — empty or not — `cart.items.exists()` at
line 319 raises `AttributeError` (no `items` accessor on `Cart`), the
request 500s, and nothing has been written.  The `transaction.atomic`
block is unreachable; were it reached, `Order.objects.create` at lines
325-330 would itself raise `TypeError` (models.py's `Order` declares none
of the `total_amount`/`payment_status`/`order_status` kwargs), and the
later `cart.items` reads would raise again. -/
def checkoutRun (st : St) (customer : Option Customer)
    (_shipping : Option ShippingPayload) : Resp × St :=
  match customer with
  | none => (Resp.badRequest "Customer not found", st)
  | some c =>
    match st.carts.find? (fun k => k.customerId == c.id) with
    | none => (Resp.badRequest "Cart is empty", st)
    | some _cart => (Resp.serverError, st)

/-- Modelled from the spec: the database-level constraint on
`CartItem.quantity`.  The settings and migrations that fix the database
backend are not under src/; models.py declares `quantity` a
`PositiveIntegerField`, the spec's data model calls it "quantity
(positive integer)", and Django generates a CHECK (quantity >= 0) for
this field on the backends that support it, so an INSERT or UPDATE
leaving a negative quantity raises `IntegrityError` and that write is
discarded. -/
def quantityCheckOk (q : Int) : Bool :=
  0 ≤ q

/-- The `CartItem.objects.get_or_create` / merge-save write of
`add_to_cart` as executed against the constrained store: the row is
written unless the resulting quantity violates `quantityCheckOk`. -/
def cartItemWriteRun (st : St) (cart : Cart) (product : Product)
    (variant : Option ProductVariant) (quantity : Int) (unit_price : Cents) :
    Except PyError St :=
  match st.cartItems.find? (cartKeyMatch cart product variant) with
  | none =>
    if quantityCheckOk quantity then
      Except.ok { st with
        cartItems := st.cartItems ++
          [⟨st.nextId, cart.id, product.id, variant.map (fun v => v.id),
            quantity, unit_price⟩],
        nextId := st.nextId + 1 }
    else Except.error PyError.integrityError
  | some item =>
    if quantityCheckOk (item.quantity + quantity) then
      Except.ok { st with
        cartItems := st.cartItems.map (mergeSave item quantity unit_price) }
    else Except.error PyError.integrityError

/-- The body of `add_to_cart` after resolution, as executed: the cart
get-or-create persists (its own autocommitted statement), the item write
runs against the constrained store, and the final
`CartSerializer(cart).data` raises — so a reached body always answers a
500, with a successful write persisted and a constraint-violating write
discarded. -/
def addItemToCartRun (st : St) (c : Customer) (product : Product)
    (variant : Option ProductVariant) (quantity : Int) : Resp × St :=
  let (cart, st1) := getOrCreateCart st c
  let unit_price := compute_unit_price product variant
  match cartItemWriteRun st1 cart product variant quantity unit_price with
  | Except.error _ => (Resp.serverError, st1)
  | Except.ok st2 =>
    match serializeCartRun st2 cart with
    | Except.ok body => (Resp.ok body, st2)
    | Except.error _ => (Resp.serverError, st2)

/-- View `add_to_cart` as executed: the validation chain of
`add_to_cart`, then `addItemToCartRun`. -/
def add_to_cartRun (st : St) (customer : Option Customer)
    (product_id : Option Nat) (variant_id : Option Nat)
    (quantity : IntField) : Resp × St :=
  match customer with
  | none => (Resp.badRequest "Customer not found", st)
  | some c =>
    match truthyId product_id with
    | none => (Resp.badRequest "product_id is required", st)
    | some pid =>
      match quantity.parse 1 with
      | none => (Resp.badRequest "quantity must be an integer", st)
      | some q =>
        match findProduct st pid with
        | none => (Resp.notFound, st)
        | some product =>
          match resolveVariant st product variant_id with
          | none => (Resp.notFound, st)
          | some variant => addItemToCartRun st c product variant q

/-- Cart row for customer A existing with zero CartItems. -/
def stEmptyCart : St := ⟨[prodA], [varA], [cartA], [], [], [], [], 12⟩

/-! ## Helper lemmas -/

lemma truthyId_of_ne_zero {pid : Nat} (h : pid ≠ 0) :
    truthyId (some pid) = some pid := by
  cases pid with
  | zero => exact absurd rfl h
  | succ n => rfl

lemma getOrCreateCart_found {st : St} {c : Customer} {cart : Cart}
    (h : st.carts.find? (fun k => k.customerId == c.id) = some cart) :
    getOrCreateCart st c = (cart, st) := by
  unfold getOrCreateCart
  rw [h]

lemma add_to_cart_resolved {st : St} {c : Customer} {pid : Nat}
    {vid : Option Nat} {q : Int} {product : Product}
    {variant : Option ProductVariant}
    (hpid : pid ≠ 0)
    (hp : findProduct st pid = some product)
    (hv : resolveVariant st product vid = some variant) :
    add_to_cart st (some c) (some pid) vid (IntField.val q)
      = addItemToCart st c product variant q := by
  unfold add_to_cart
  rw [truthyId_of_ne_zero hpid]
  simp only [IntField.parse, hp, hv]

lemma addItemToCart_merge {st : St} {c : Customer} {product : Product}
    {variant : Option ProductVariant} {cart : Cart} {item : CartItem} (q : Int)
    (hcart : st.carts.find? (fun k => k.customerId == c.id) = some cart)
    (hitem : st.cartItems.find? (cartKeyMatch cart product variant) = some item) :
    (addItemToCart st c product variant q).2.cartItems
      = st.cartItems.map (mergeSave item q (compute_unit_price product variant)) ∧
    (addItemToCart st c product variant q).1
      = Resp.ok (serializeCart (addItemToCart st c product variant q).2 cart) ∧
    (addItemToCart st c product variant q).2.carts = st.carts := by
  unfold addItemToCart
  rw [getOrCreateCart_found hcart]
  simp only [hitem]
  exact ⟨trivial, trivial, trivial⟩

/-! ## Claim C7: unit price computation -/

/-- C7 is refuted at `prodZero` (price 10.00, discount set to 0.00): the
claim's base (`claimedBaseC7`) is the 0.00 discount, but
`compute_unit_price` returns 10.00 — Python truthiness makes
`Product.get_price` fall back to `price` for a zero discount. -/
theorem compute_unit_price_zero_discount_counterexample :
    compute_unit_price prodZero none = 1000 ∧
    claimedBaseC7 prodZero + variantSurcharge none = 0 ∧
    compute_unit_price prodZero none ≠
      claimedBaseC7 prodZero + variantSurcharge none := by
  refine ⟨rfl, rfl, ?_⟩
  decide

/-- C7 as amended: `compute_unit_price` returns base + surcharge where the
base is the discount price when one is set and nonzero, and the product
price when the discount is unset or set to 0.00; the surcharge is the
variant's `additional_price` when a variant is given and exactly 0
otherwise.  (Quantization to 2 places is exact on cent inputs; the
function is a pure Lean function, hence deterministic.) -/
theorem compute_unit_price_correct (p : Product) (v : Option ProductVariant) :
    ((p.discount_price = none ∨ p.discount_price = some 0) →
      compute_unit_price p v = p.price + variantSurcharge v) ∧
    (∀ d : Cents, p.discount_price = some d → d ≠ 0 →
      compute_unit_price p v = d + variantSurcharge v) := by
  constructor
  · intro h
    unfold compute_unit_price Product.get_price variantSurcharge
    rcases h with h | h
    · simp [h]
    · simp [h]
  · intro d hd hdz
    unfold compute_unit_price Product.get_price variantSurcharge
    simp [hd, hdz]

/-- Witness for `compute_unit_price_correct` at `prodDisc` (10.00 with a
5.00 discount) and variant `varA` (+1.50): the discounted unit price is
6.50. -/
theorem compute_unit_price_correct_witness :
    prodDisc.discount_price = some 500 ∧ (500 : Cents) ≠ 0 ∧
    compute_unit_price prodDisc (some varA) = 500 + variantSurcharge (some varA) ∧
    compute_unit_price prodDisc (some varA) = 650 :=
  ⟨rfl, by decide,
   (compute_unit_price_correct prodDisc (some varA)).2 500 rfl (by decide), rfl⟩

/-! ## Claims C5 and C6: add_to_cart merge behaviour -/

lemma mergeSave_key (item : CartItem) (q : Int) (price : Cents) (x : CartItem) :
    (mergeSave item q price x).cartId = x.cartId ∧
    (mergeSave item q price x).productId = x.productId ∧
    (mergeSave item q price x).variantId = x.variantId := by
  unfold mergeSave
  split
  · exact ⟨rfl, rfl, rfl⟩
  · exact ⟨rfl, rfl, rfl⟩

lemma sameKey_mergeSave (item : CartItem) (q : Int) (price : Cents)
    (a b : CartItem) :
    sameKey (mergeSave item q price a) (mergeSave item q price b) ↔ sameKey a b := by
  obtain ⟨ha1, ha2, ha3⟩ := mergeSave_key item q price a
  obtain ⟨hb1, hb2, hb3⟩ := mergeSave_key item q price b
  unfold sameKey
  rw [ha1, ha2, ha3, hb1, hb2, hb3]

lemma cartKeyMatch_mergeSave (cart : Cart) (product : Product)
    (variant : Option ProductVariant) (item : CartItem) (q : Int) (price : Cents)
    (x : CartItem) :
    cartKeyMatch cart product variant (mergeSave item q price x)
      = cartKeyMatch cart product variant x := by
  obtain ⟨h1, h2, h3⟩ := mergeSave_key item q price x
  unfold cartKeyMatch
  rw [h1, h2, h3]

lemma pairwise_mergeSave (l : List CartItem) (item : CartItem) (q : Int)
    (price : Cents) (h : l.Pairwise (fun a b => ¬ sameKey a b)) :
    (l.map (mergeSave item q price)).Pairwise (fun a b => ¬ sameKey a b) := by
  refine List.Pairwise.map _ ?_ h
  intro a b hab hcon
  exact hab ((sameKey_mergeSave item q price a b).mp hcon)

lemma pairwise_append_new (l : List CartItem) (nw : CartItem)
    (h : l.Pairwise (fun a b => ¬ sameKey a b))
    (hnone : ∀ a ∈ l, ¬ sameKey a nw) :
    (l ++ [nw]).Pairwise (fun a b => ¬ sameKey a b) := by
  rw [List.pairwise_append]
  refine ⟨h, List.pairwise_singleton _ _, ?_⟩
  intro a ha b hb
  rw [List.mem_singleton] at hb
  subst hb
  exact hnone a ha

lemma sameKey_new_iff (cart : Cart) (product : Product)
    (variant : Option ProductVariant) (nid : Nat) (q : Int) (price : Cents)
    (a : CartItem) :
    sameKey a ⟨nid, cart.id, product.id, variant.map (fun v => v.id), q, price⟩
      ↔ cartKeyMatch cart product variant a = true := by
  unfold sameKey cartKeyMatch
  simp [Bool.and_eq_true, beq_iff_eq, and_assoc]

lemma uniqueCartKeys_addItemToCart (st : St) (c : Customer) (product : Product)
    (variant : Option ProductVariant) (q : Int) (h : uniqueCartKeys st) :
    uniqueCartKeys (addItemToCart st c product variant q).2 := by
  unfold addItemToCart getOrCreateCart
  cases hf : st.carts.find? (fun k => k.customerId == c.id) with
  | some cart =>
    dsimp only
    cases hi : st.cartItems.find? (cartKeyMatch cart product variant) with
    | none =>
      dsimp only
      refine pairwise_append_new _ _ h ?_
      intro a ha hcon
      have hfa := List.find?_eq_none.mp hi a ha
      exact hfa ((sameKey_new_iff cart product variant _ q _ a).mp hcon)
    | some item =>
      dsimp only
      exact pairwise_mergeSave _ _ _ _ h
  | none =>
    dsimp only
    cases hi : st.cartItems.find? (cartKeyMatch ⟨st.nextId, c.id⟩ product variant) with
    | none =>
      dsimp only
      refine pairwise_append_new _ _ h ?_
      intro a ha hcon
      have hfa := List.find?_eq_none.mp hi a ha
      exact hfa ((sameKey_new_iff ⟨st.nextId, c.id⟩ product variant _ q _ a).mp hcon)
    | some item =>
      dsimp only
      exact pairwise_mergeSave _ _ _ _ h

lemma uniqueCartKeys_add (st : St) (customer : Option Customer)
    (product_id variant_id : Option Nat) (quantity : IntField)
    (h : uniqueCartKeys st) :
    uniqueCartKeys (add_to_cart st customer product_id variant_id quantity).2 := by
  unfold add_to_cart
  cases customer with
  | none => exact h
  | some c =>
    dsimp only
    cases truthyId product_id with
    | none => exact h
    | some pid =>
      dsimp only
      cases quantity.parse 1 with
      | none => exact h
      | some q =>
        dsimp only
        cases findProduct st pid with
        | none => exact h
        | some product =>
          dsimp only
          cases resolveVariant st product variant_id with
          | none => exact h
          | some variant =>
            dsimp only
            exact uniqueCartKeys_addItemToCart st c product variant q h

/-- C5: the (cart, product, variant) uniqueness invariant — with a NULL
variant a key of its own — is preserved by every `add_to_cart`, because a
repeated add of an existing key merges into the existing line instead of
creating a second row; concretely, adding (`prodA`, `varA`, qty 2) and
then (`prodA`, `varA`, qty 3) to an empty store leaves exactly one
CartItem, with quantity 5. -/
theorem cart_key_uniqueness_and_merge :
    (∀ (st : St) (customer : Option Customer)
        (product_id variant_id : Option Nat) (quantity : IntField),
      uniqueCartKeys st →
      uniqueCartKeys (add_to_cart st customer product_id variant_id quantity).2) ∧
    (add_to_cart (add_to_cart st0 (some custA) (some 1) (some 2) (IntField.val 2)).2
        (some custA) (some 1) (some 2) (IntField.val 3)).2.cartItems
      = [⟨11, 10, 1, some 2, 5, 1150⟩] :=
  ⟨uniqueCartKeys_add, rfl⟩

/-- Witness for `cart_key_uniqueness_and_merge`: the invariant holds of
the empty store `st0` and is preserved by a concrete add. -/
theorem cart_key_uniqueness_and_merge_witness :
    uniqueCartKeys st0 ∧
    uniqueCartKeys
      (add_to_cart st0 (some custA) (some 1) (some 2) (IntField.val 2)).2 :=
  ⟨List.Pairwise.nil,
   cart_key_uniqueness_and_merge.1 st0 (some custA) (some 1) (some 2)
     (IntField.val 2) List.Pairwise.nil⟩

/-- C6: when `add_to_cart` hits an existing (cart, product, variant) line,
the line is updated in place (`mergeSave`): its quantity grows by the
requested amount and its stored `unit_price` is overwritten with the unit
price freshly computed from the current product/variant state; no line is
added or removed. -/
theorem add_to_cart_refreshes_price (st : St) (c : Customer) (pid : Nat)
    (vid : Option Nat) (q : Int) (product : Product)
    (variant : Option ProductVariant) (cart : Cart) (item : CartItem)
    (hpid : pid ≠ 0)
    (hp : findProduct st pid = some product)
    (hv : resolveVariant st product vid = some variant)
    (hcart : st.carts.find? (fun k => k.customerId == c.id) = some cart)
    (hitem : st.cartItems.find? (cartKeyMatch cart product variant) = some item) :
    (add_to_cart st (some c) (some pid) vid (IntField.val q)).2.cartItems
      = st.cartItems.map (mergeSave item q (compute_unit_price product variant)) ∧
    (add_to_cart st (some c) (some pid) vid (IntField.val q)).2.cartItems.find?
        (cartKeyMatch cart product variant)
      = some { item with quantity := item.quantity + q,
                         unit_price := compute_unit_price product variant } ∧
    (add_to_cart st (some c) (some pid) vid (IntField.val q)).2.cartItems.length
      = st.cartItems.length := by
  rw [add_to_cart_resolved hpid hp hv]
  have hmap := (addItemToCart_merge q hcart hitem).1
  refine ⟨hmap, ?_, by rw [hmap, List.length_map]⟩
  rw [hmap, List.find?_map]
  have hcomp : (cartKeyMatch cart product variant ∘
      mergeSave item q (compute_unit_price product variant))
      = cartKeyMatch cart product variant := by
    funext x
    exact cartKeyMatch_mergeSave cart product variant item q _ x
  rw [hcomp, hitem]
  dsimp only [Option.map]
  unfold mergeSave
  rw [if_pos (beq_self_eq_true item.id)]

/-- Witness for `add_to_cart_refreshes_price`: `itemA` froze 11.50, the
product price was then raised to 20.00 (`stP3`), and a re-add of quantity
1 leaves one line with quantity 3 and unit price 21.50. -/
theorem add_to_cart_refreshes_price_witness :
    (1 : Nat) ≠ 0 ∧
    findProduct stP3 1 = some prodP3 ∧
    resolveVariant stP3 prodP3 (some 2) = some (some varA) ∧
    stP3.carts.find? (fun k => k.customerId == custA.id) = some cartA ∧
    stP3.cartItems.find? (cartKeyMatch cartA prodP3 (some varA)) = some itemA ∧
    ((add_to_cart stP3 (some custA) (some 1) (some 2) (IntField.val 1)).2.cartItems
       = stP3.cartItems.map (mergeSave itemA 1 (compute_unit_price prodP3 (some varA))) ∧
     (add_to_cart stP3 (some custA) (some 1) (some 2) (IntField.val 1)).2.cartItems.find?
        (cartKeyMatch cartA prodP3 (some varA))
       = some { itemA with quantity := itemA.quantity + 1,
                           unit_price := compute_unit_price prodP3 (some varA) } ∧
     (add_to_cart stP3 (some custA) (some 1) (some 2) (IntField.val 1)).2.cartItems.length
       = stP3.cartItems.length) :=
  ⟨by decide, rfl, rfl, rfl, rfl,
   add_to_cart_refreshes_price stP3 custA 1 (some 2) 1 prodP3 (some varA)
     cartA itemA (by decide) rfl rfl rfl rfl⟩

/-! ## Claim C8: ownership isolation -/

/-- C8: a CartItem that belongs to a cart owned by customer B is
invisible to a different customer A: both `update_cart_item` and
`remove_from_cart` by A on that item answer exactly the not-found
response with the store untouched — indistinguishable from the same calls
on an id that matches no item at all. -/
theorem ownership_isolation (st : St) (a b : Customer) (item : CartItem)
    (cartOfB : Cart) (qf : IntField) (jid : Nat)
    (hmem : item ∈ st.cartItems)
    (hids : ∀ x ∈ st.cartItems, x.id = item.id → x = item)
    (hcart : st.carts.find? (fun k => k.id == item.cartId) = some cartOfB)
    (hown : cartOfB.customerId = b.id)
    (hdiff : a.id ≠ b.id)
    (hjid : ∀ x ∈ st.cartItems, x.id ≠ jid) :
    update_cart_item st (some a) item.id qf = (Resp.notFound, st) ∧
    remove_from_cart st (some a) item.id = (Resp.notFound, st) ∧
    update_cart_item st (some a) jid qf = (Resp.notFound, st) ∧
    remove_from_cart st (some a) jid = (Resp.notFound, st) := by
  have hfound : findOwnedCartItem st (some a) item.id = none := by
    unfold findOwnedCartItem
    dsimp only
    rw [List.find?_eq_none]
    intro x hx hpx
    rw [Bool.and_eq_true] at hpx
    obtain ⟨hid, hrest⟩ := hpx
    have hx_eq : x = item := hids x hx (beq_iff_eq.mp hid)
    subst hx_eq
    rw [hcart] at hrest
    dsimp only at hrest
    exact hdiff ((beq_iff_eq.mp hrest).symm.trans hown)
  have hnone : findOwnedCartItem st (some a) jid = none := by
    unfold findOwnedCartItem
    dsimp only
    rw [List.find?_eq_none]
    intro x hx hpx
    rw [Bool.and_eq_true] at hpx
    exact hjid x hx (beq_iff_eq.mp hpx.1)
  refine ⟨?_, ?_, ?_, ?_⟩
  · unfold update_cart_item
    rw [hfound]
  · unfold remove_from_cart
    rw [hfound]
  · unfold update_cart_item
    rw [hnone]
  · unfold remove_from_cart
    rw [hnone]

/-- Witness for `ownership_isolation`: customer A attacking customer B's
item `itemB` in `stB`, and the nonexistent item id 99. -/
theorem ownership_isolation_witness :
    itemB ∈ stB.cartItems ∧
    stB.carts.find? (fun k => k.id == itemB.cartId) = some cartB ∧
    cartB.customerId = custB.id ∧
    custA.id ≠ custB.id ∧
    (update_cart_item stB (some custA) itemB.id (IntField.val 4)
       = (Resp.notFound, stB) ∧
     remove_from_cart stB (some custA) itemB.id = (Resp.notFound, stB) ∧
     update_cart_item stB (some custA) 99 (IntField.val 4)
       = (Resp.notFound, stB) ∧
     remove_from_cart stB (some custA) 99 = (Resp.notFound, stB)) :=
  ⟨by decide, rfl, rfl, by decide,
   ownership_isolation stB custA custB itemB cartB (IntField.val 4) 99
     (by decide) (by decide) rfl rfl (by decide) (by decide)⟩

/-! ## Claim C1: checkout atomicity -/

/-- C1's subject cannot occur: on any state where the customer has an
existing cart — in particular any non-empty cart — `checkout` raises
`AttributeError` at `cart.items.exists()` (views.py line 319) before the
`transaction.atomic` block, answering a 500 with the store untouched.
No checkout transaction, and hence no mid-transaction failure or
rollback, is reachable in the program. -/
theorem checkout_crashes_on_existing_cart (st : St) (c : Customer)
    (cart : Cart) (shipping : Option ShippingPayload)
    (hcart : st.carts.find? (fun k => k.customerId == c.id) = some cart) :
    checkoutRun st (some c) shipping = (Resp.serverError, st) := by
  unfold checkoutRun
  dsimp only
  rw [hcart]

/-- Witness for `checkout_crashes_on_existing_cart`: customer A's
one-line cart `stC`. -/
theorem checkout_crashes_on_existing_cart_witness :
    stC.carts.find? (fun k => k.customerId == custA.id) = some cartA ∧
    checkoutRun stC (some custA) none = (Resp.serverError, stC) :=
  ⟨rfl, checkout_crashes_on_existing_cart stC custA cartA none rfl⟩

/-! ## Claim C2: order creation -/

/-- C2 fails in the program: checkout on customer A's non-empty cart
`stC` answers a 500 and creates nothing — the request dies at
`cart.items.exists()` (views.py line 319), and the Order create it was
heading for passes `total_amount`/`payment_status`/`order_status` kwargs
that models.py's `Order` (lines 63-78) does not declare, a `TypeError`.
The orders and order-items tables stay empty. -/
theorem checkout_creates_no_order :
    (checkoutRun stC (some custA) none).1 = Resp.serverError ∧
    (checkoutRun stC (some custA) none).2.orders = ([] : List Order) ∧
    (checkoutRun stC (some custA) none).2.orderItems = ([] : List OrderItem) :=
  ⟨rfl, rfl, rfl⟩

/-! ## Claim C3: checkout clearing the cart -/

/-- C3 fails in the program: no checkout succeeds (customer A's answers a
500 before any write), the CartItems remain exactly as before, and the
subsequent `view_cart` does not return an empty snapshot — it 500s inside
`CartSerializer` on the missing `items` attribute. -/
theorem checkout_leaves_cart_and_view_crashes :
    (checkoutRun stC (some custA) none).2.cartItems = [itemA] ∧
    view_cartRun (checkoutRun stC (some custA) none).2 (some custA)
      = Resp.serverError :=
  ⟨rfl, rfl⟩

/-! ## Claim C4: checkout precondition failures -/

/-- C4 fails on its zero-items case: with customer A's cart row existing
but empty (`stEmptyCart`), `not cart or not cart.items.exists()` reaches
`cart.items` and raises `AttributeError` — a 500 server error, not the
claimed client error.  The missing-customer and missing-cart cases do
answer 400 with the store unchanged. -/
theorem checkout_empty_cart_server_error :
    checkoutRun stEmptyCart (some custA) none
      = (Resp.serverError, stEmptyCart) ∧
    checkoutRun st0 (some custA) none
      = (Resp.badRequest "Cart is empty", st0) ∧
    checkoutRun stC none none
      = (Resp.badRequest "Customer not found", stC) :=
  ⟨rfl, rfl, rfl⟩

/-! ## Claim C9: cart snapshot shape -/

/-- C9 fails in the program: serializing customer A's one-line cart
produces no snapshot at all — `CartSerializer` raises `AttributeError`
on the missing `items` attribute, so `view_cart` answers a 500 — and
`Cart.total` itself raises on its first line.  The only body `view_cart`
ever returns is the hardcoded empty one of the no-customer/no-cart
branches, which carries no per-item `unit_price`. -/
theorem cart_serialization_crashes :
    view_cartRun stC (some custA) = Resp.serverError ∧
    serializeCartRun stC cartA = Except.error PyError.attributeError ∧
    Cart.totalRun stC cartA = Except.error PyError.attributeError ∧
    view_cartRun stC none = Resp.ok emptyCartResponse :=
  ⟨rfl, rfl, rfl, rfl⟩

/-! ## Claim C10: non-positive quantities on add_to_cart -/

lemma add_to_cartRun_resolved {st : St} {c : Customer} {pid : Nat}
    {vid : Option Nat} {q : Int} {product : Product}
    {variant : Option ProductVariant}
    (hpid : pid ≠ 0)
    (hp : findProduct st pid = some product)
    (hv : resolveVariant st product vid = some variant) :
    add_to_cartRun st (some c) (some pid) vid (IntField.val q)
      = addItemToCartRun st c product variant q := by
  unfold add_to_cartRun
  rw [truthyId_of_ne_zero hpid]
  simp only [IntField.parse, hp, hv]

/-- C10 as stated is false at a concrete input: adding (`prodA`, no
variant, quantity -5) for customer A on `stC` — a fresh key — neither
succeeds nor creates a line: the INSERT violates the quantity constraint
(`IntegrityError`), the response is a 500, and the store is unchanged. -/
theorem add_to_cart_negative_counterexample :
    (add_to_cartRun stC (some custA) (some 1) none (IntField.val (-5))).1
      = Resp.serverError ∧
    (add_to_cartRun stC (some custA) (some 1) none (IntField.val (-5))).2
      = stC :=
  ⟨rfl, rfl⟩

/-- C10 as amended: a quantity parsing to q ≤ 0 passes validation (the
view has no sign check).  On a fresh (cart, product, variant) key the
code attempts to create the line with quantity q as given: the row
persists for q = 0, while a negative q violates the
`PositiveIntegerField` CHECK (`IntegrityError`) and no line is created.
On an existing line the quantity is incremented by q arithmetically: the
update persists when the result is ≥ 0 and is rejected — line unchanged —
when negative; the line is never deleted either way.  In every such case
the response is a server error, never a success, because cart
serialization crashes (or the constraint violation raises first). -/
theorem add_to_cart_nonpositive_behavior (st : St) (c : Customer) (pid : Nat)
    (vid : Option Nat) (q : Int) (product : Product)
    (variant : Option ProductVariant) (cart : Cart)
    (hq : q ≤ 0)
    (hpid : pid ≠ 0)
    (hp : findProduct st pid = some product)
    (hv : resolveVariant st product vid = some variant)
    (hcart : st.carts.find? (fun k => k.customerId == c.id) = some cart) :
    (add_to_cartRun st (some c) (some pid) vid (IntField.val q)).1
      = Resp.serverError ∧
    (st.cartItems.find? (cartKeyMatch cart product variant) = none →
      (q = 0 →
        (add_to_cartRun st (some c) (some pid) vid (IntField.val q)).2.cartItems
          = st.cartItems ++
              [⟨st.nextId, cart.id, product.id, variant.map (fun v => v.id), q,
                compute_unit_price product variant⟩]) ∧
      (q < 0 →
        (add_to_cartRun st (some c) (some pid) vid (IntField.val q)).2 = st)) ∧
    (∀ item, st.cartItems.find? (cartKeyMatch cart product variant) = some item →
      (0 ≤ item.quantity + q →
        (add_to_cartRun st (some c) (some pid) vid (IntField.val q)).2.cartItems
          = st.cartItems.map (mergeSave item q (compute_unit_price product variant))) ∧
      (item.quantity + q < 0 →
        (add_to_cartRun st (some c) (some pid) vid (IntField.val q)).2 = st) ∧
      (add_to_cartRun st (some c) (some pid) vid (IntField.val q)).2.cartItems.length
        = st.cartItems.length) := by
  rw [add_to_cartRun_resolved hpid hp hv]
  refine ⟨?_, ?_, ?_⟩
  · unfold addItemToCartRun cartItemWriteRun
    rw [getOrCreateCart_found hcart]
    dsimp only
    cases hfind : st.cartItems.find? (cartKeyMatch cart product variant) with
    | none =>
      dsimp only
      cases hcq : quantityCheckOk q with
      | true => simp [serializeCartRun]
      | false => simp
    | some item =>
      dsimp only
      cases hcq : quantityCheckOk (item.quantity + q) with
      | true => simp [serializeCartRun]
      | false => simp
  · intro hnone
    constructor
    · intro h0
      subst h0
      unfold addItemToCartRun cartItemWriteRun
      rw [getOrCreateCart_found hcart]
      dsimp only
      rw [hnone]
      have hcq : quantityCheckOk 0 = true := by simp [quantityCheckOk]
      rw [hcq]
      simp [serializeCartRun]
    · intro hneg
      unfold addItemToCartRun cartItemWriteRun
      rw [getOrCreateCart_found hcart]
      dsimp only
      rw [hnone]
      have hcq : quantityCheckOk q = false := by
        simp only [quantityCheckOk, decide_eq_false_iff_not]
        omega
      rw [hcq]
      simp
  · intro item hsome
    refine ⟨?_, ?_, ?_⟩
    · intro hpos
      unfold addItemToCartRun cartItemWriteRun
      rw [getOrCreateCart_found hcart]
      dsimp only
      rw [hsome]
      dsimp only
      have hcq : quantityCheckOk (item.quantity + q) = true := by
        simp only [quantityCheckOk, decide_eq_true_eq]
        omega
      rw [hcq]
      simp [serializeCartRun]
    · intro hneg
      unfold addItemToCartRun cartItemWriteRun
      rw [getOrCreateCart_found hcart]
      dsimp only
      rw [hsome]
      dsimp only
      have hcq : quantityCheckOk (item.quantity + q) = false := by
        simp only [quantityCheckOk, decide_eq_false_iff_not]
        omega
      rw [hcq]
      simp
    · unfold addItemToCartRun cartItemWriteRun
      rw [getOrCreateCart_found hcart]
      dsimp only
      rw [hsome]
      dsimp only
      cases hcq : quantityCheckOk (item.quantity + q) with
      | true => simp [serializeCartRun]
      | false => simp

/-- Witness for `add_to_cart_nonpositive_behavior`: on `stC` the key
(`prodA`, no variant) is fresh and q = 0 is accepted — a zero-quantity
line is created while the response is still a 500. -/
theorem add_to_cart_nonpositive_behavior_witness :
    (0 : Int) ≤ 0 ∧
    (1 : Nat) ≠ 0 ∧
    findProduct stC 1 = some prodA ∧
    resolveVariant stC prodA none = some none ∧
    stC.carts.find? (fun k => k.customerId == custA.id) = some cartA ∧
    (add_to_cartRun stC (some custA) (some 1) none (IntField.val 0)).1
      = Resp.serverError ∧
    (add_to_cartRun stC (some custA) (some 1) none (IntField.val 0)).2.cartItems
      = stC.cartItems ++ [⟨12, 10, 1, none, 0, 1000⟩] :=
  ⟨by decide, by decide, rfl, rfl, rfl,
   (add_to_cart_nonpositive_behavior stC custA 1 none 0 prodA none cartA
      (by decide) (by decide) rfl rfl rfl).1,
   ((add_to_cart_nonpositive_behavior stC custA 1 none 0 prodA none cartA
      (by decide) (by decide) rfl rfl rfl).2.1 rfl).1 rfl⟩

end Shop
